import Mathlib

/-!
Verification development for the Real-Estate-PDF-Analyzer frontend.

The repository is a Next.js UI; the logic under verification lives in
`frontend/src/app/analysis/[id]/page.tsx` (field classification and display
grouping of one analysis record, file-size formatting, session gating and
HTTP-status handling), `frontend/src/app/dashboard/page.tsx` (list, delete
flow, session gating) and the upload page (file-type validation).

The embedding is shallow: JavaScript objects `Record<string, any>` become
insertion-ordered association lists `List (String × JsValue)`; JavaScript
truthiness is modelled by `jsTruthy`; React state updates become explicit
state-passing functions; HTTP responses are abstracted to their status code.
Floating-point `Math.log` is idealised by `Nat.log` (the exact base-1024
floor logarithm that the JavaScript expression computes on the integer
byte counts in scope).
-/

/-- A JavaScript runtime value as it can appear in `extracted_data`
(`Record<string, any>`).  Numeric values are idealised as integers
(the extraction service produces strings and integer-like numbers). -/
inductive JsValue where
  | undef : JsValue
  | null : JsValue
  | str : String → JsValue
  | num : Int → JsValue
  | bool : Bool → JsValue
deriving DecidableEq

/-- JavaScript truthiness of a value: `undefined`, `null`, `""`, `0` and
`false` are falsy, everything else in scope is truthy. -/
def jsTruthy : JsValue → Bool
  | JsValue.undef => false
  | JsValue.null => false
  | JsValue.str s => !(s == "")
  | JsValue.num n => !(n == 0)
  | JsValue.bool b => b

/-- An `extracted_data` mapping: a JavaScript object modelled as the
insertion-ordered list of its own enumerable (key, value) properties.
JavaScript objects never hold two properties with the same key; theorems
that need this carry a `(keyList d).Nodup` hypothesis. -/
abbrev ExtractedData : Type := List (String × JsValue)

/-- The keys of the mapping, in insertion order (`Object.keys`). -/
def keyList (d : ExtractedData) : List String :=
  d.map Prod.fst

/-- Whether the mapping has a property named `k` (key presence, regardless
of the value stored there). -/
def containsKey (d : ExtractedData) (k : String) : Bool :=
  (keyList d).contains k

/-- JavaScript property access `d[k]`: the stored value when the key is
present, `undefined` otherwise. -/
def getVal (d : ExtractedData) (k : String) : JsValue :=
  match d.find? (fun p => p.1 == k) with
  | some p => p.2
  | none => JsValue.undef

/-- JavaScript `a || b`: returns `a` when `a` is truthy, else `b`. -/
def jsOr (a b : JsValue) : JsValue :=
  if jsTruthy a then a else b

/-- JavaScript `a && b`: returns `a` when `a` is falsy, else `b`. -/
def jsAnd (a b : JsValue) : JsValue :=
  if jsTruthy a then b else a

/-- JavaScript `!a`: boolean negation of truthiness. -/
def jsNot (a : JsValue) : JsValue :=
  JsValue.bool (!jsTruthy a)

/-- The `isCommercial` expression of the analysis detail page, verbatim:
`extracted_data['Property Type'] || extracted_data['Sq Ft'] && !extracted_data['Bedrooms']`
(JavaScript `&&` binds tighter than `||`; the operators return operand
values, not booleans). -/
def isCommercialVal (d : ExtractedData) : JsValue :=
  jsOr (getVal d "Property Type")
    (jsAnd (getVal d "Sq Ft") (jsNot (getVal d "Bedrooms")))

/-- The classifier decision as the boolean context `if (isCommercial)`
sees it. -/
def isCommercial (d : ExtractedData) : Bool :=
  jsTruthy (isCommercialVal d)

/-- The fixed primary key order chosen per kind (`displayOrder` in the
source): commercial gets Price / Sq Ft / Property Type, residential gets
Price / Sq Ft / Bedrooms / Bathrooms. -/
def displayOrder (d : ExtractedData) : List String :=
  if isCommercial d then ["Price", "Sq Ft", "Property Type"]
  else ["Price", "Sq Ft", "Bedrooms", "Bathrooms"]

/-- The fixed details key order (`propertyDetails` in the source), the same
for both kinds. -/
def propertyDetails : List String :=
  ["Address", "MLS#", "Built"]

/-- The `primaryKeys` set of the source: all keys covered by the primary
and details lists of the chosen kind. -/
def primaryKeysList (d : ExtractedData) : List String :=
  displayOrder d ++ propertyDetails

/-- Keys actually rendered in the main property block: the fixed order,
filtered by `if (analysis.extracted_data[key])` — a truthiness check. -/
def renderedPrimary (d : ExtractedData) : List String :=
  (displayOrder d).filter (fun k => jsTruthy (getVal d k))

/-- Keys actually rendered in the Property Details block, same truthiness
filter. -/
def renderedDetails (d : ExtractedData) : List String :=
  propertyDetails.filter (fun k => jsTruthy (getVal d k))

/-- `additionalEntries` of the source: `Object.entries(extracted_data)`
filtered to keys outside `primaryKeys` (no truthiness check here). -/
def additionalEntries (d : ExtractedData) : ExtractedData :=
  d.filter (fun p => !((primaryKeysList d).contains p.1))

/-- Every key the grouping block renders, over all three sections. -/
def allGroupKeys (d : ExtractedData) : List String :=
  renderedPrimary d ++ renderedDetails d ++ keyList (additionalEntries d)

/-- The display grouping derived from one analysis record. -/
structure Grouping where
  commercial : Bool
  primaryShown : List String
  detailsShown : List String
  additional : ExtractedData
deriving DecidableEq

/-- The Extracted Data section of the detail page: rendered only under the
guard `Object.keys(analysis.extracted_data).length > 0`; `none` means the
whole grouping block is omitted.  The function is total: no input raises
an error. -/
def renderGrouping (d : ExtractedData) : Option Grouping :=
  if (keyList d).length > 0 then
    some { commercial := isCommercial d
           primaryShown := renderedPrimary d
           detailsShown := renderedDetails d
           additional := additionalEntries d }
  else
    none

/-- The unit array `['Bytes', 'KB', 'MB', 'GB']` of `formatFileSize`. -/
def sizesArr : List String :=
  ["Bytes", "KB", "MB", "GB"]

/-- `parseFloat((bytes / Math.pow(1024, i)).toFixed(2))` rendered back to a
string: the value `bytes / 1024 ^ i` rounded half-up to two decimals, with
trailing zeros (and a trailing decimal point) dropped, exactly as
`parseFloat` then string concatenation produce. -/
def sizeNumString (bytes i : Nat) : String :=
  let q := 1024 ^ i
  let scaled := (200 * bytes + q) / (2 * q)
  let ip := scaled / 100
  let fr := scaled % 100
  if fr = 0 then toString ip
  else if fr % 10 = 0 then toString ip ++ "." ++ toString (fr / 10)
  else if fr < 10 then toString ip ++ ".0" ++ toString fr
  else toString ip ++ "." ++ toString fr

/-- The full formatted string for a given unit index `i`: number, a space,
then `sizes[i]` — where JavaScript indexing past the end of the array
yields `undefined`, which string concatenation renders as `"undefined"`. -/
def formatWith (bytes i : Nat) : String :=
  sizeNumString bytes i ++ " " ++ sizesArr.getD i "undefined"

/-- `formatFileSize` of both pages: `'0 Bytes'` for zero, otherwise the
value scaled by `1024 ^ i` with `i = Math.floor(Math.log(bytes) / Math.log(1024))`,
idealised as the exact `Nat.log 1024 bytes`. -/
def formatFileSize (bytes : Nat) : String :=
  if bytes = 0 then "0 Bytes"
  else formatWith bytes (Nat.log 1024 bytes)

/-- The client-local storage entries the session holder uses:
`localStorage.getItem` returns the stored string or `null` (`none`). -/
structure Storage where
  session_token : Option String
  user : Option String
deriving DecidableEq

/-- Storage after `clear()` — both entries removed. -/
def clearedStorage : Storage :=
  ⟨none, none⟩

/-- JavaScript falsiness of a `localStorage.getItem` result: `null` and
the empty string are falsy, any other string is truthy. -/
def jsStrFalsy : Option String → Bool
  | none => true
  | some s => s == ""

/-- `response.ok`: status in the 2xx range. -/
def respOk (status : Nat) : Bool :=
  200 ≤ status && status < 300

/-- The observable effects of one response handler: storage afterwards,
the route pushed (if any), and the error message set (if any). -/
structure PageEffects where
  storage : Storage
  pushedRoute : Option String
  errorMsg : Option String
deriving DecidableEq

/-- Response handling of `fetchAnalyses` on the dashboard: on 401 it
removes `session_token` and `user` and pushes `/login`; on success it only
stores the list; any other status falls through silently (only a thrown
fetch error sets a message). -/
def fetchAnalysesOn (s : Storage) (status : Nat) : PageEffects :=
  if respOk status then ⟨s, none, none⟩
  else if status = 401 then ⟨clearedStorage, some "/login", none⟩
  else ⟨s, none, none⟩

/-- Response handling of `fetchAnalysis` on the detail page: 401 pushes
`/login` (leaving storage untouched), 404 sets the inline message
`Analysis not found`, other failures fall through. -/
def fetchAnalysisOn (s : Storage) (status : Nat) : PageEffects :=
  if respOk status then ⟨s, none, none⟩
  else if status = 401 then ⟨s, some "/login", none⟩
  else if status = 404 then ⟨s, none, some "Analysis not found"⟩
  else ⟨s, none, none⟩

/-- Response handling of `handleDeleteAnalysis` on the dashboard: 401
pushes `/login` without touching storage; other failures set the delete
error message. -/
def deleteDashOn (s : Storage) (status : Nat) : PageEffects :=
  if respOk status then ⟨s, none, none⟩
  else if status = 401 then ⟨s, some "/login", none⟩
  else ⟨s, none, some "Failed to delete analysis"⟩

/-- Response handling of `handleDeleteAnalysis` on the detail page:
success redirects to the dashboard, 401 pushes `/login` without touching
storage, other failures set the delete error message. -/
def deleteDetailOn (s : Storage) (status : Nat) : PageEffects :=
  if respOk status then ⟨s, some "/dashboard", none⟩
  else if status = 401 then ⟨s, some "/login", none⟩
  else ⟨s, none, some "Failed to delete analysis"⟩

/-- What a page's load effect decides before any rendering: the route it
pushes (if any) and whether the authenticated fetch is started. -/
structure LoadOutcome where
  redirect : Option String
  fetchIssued : Bool
deriving DecidableEq

/-- The dashboard `useEffect`: reads both `session_token` and `user`; if
either is falsy it pushes `/login` and returns before `fetchAnalyses()`. -/
def dashboardLoad (s : Storage) : LoadOutcome :=
  if jsStrFalsy s.session_token || jsStrFalsy s.user then ⟨some "/login", false⟩
  else ⟨none, true⟩

/-- The analysis detail `useEffect`: reads only `session_token`; if it is
falsy it pushes `/login` and returns before `fetchAnalysis()`.  The `user`
entry is never read. -/
def analysisLoad (s : Storage) : LoadOutcome :=
  if jsStrFalsy s.session_token then ⟨some "/login", false⟩
  else ⟨none, true⟩

/-- One entry of the dashboard list (the fields the delete flow can
observe; `filter` inspects only `id`). -/
structure AnalysisRec where
  id : Int
  original_filename : String
  file_size : Nat
deriving DecidableEq

/-- The dashboard state the delete flow reads and writes. -/
structure DashState where
  analyses : List AnalysisRec
  deleteConfirm : Option Int
  error : Option String
deriving DecidableEq

/-- Clicking Delete on a card: `setDeleteConfirm(analysis.id)` opens the
confirmation modal.  The second component counts DELETE requests issued
by the step: zero. -/
def clickDelete (st : DashState) (analysisId : Int) : DashState × Nat :=
  ({ st with deleteConfirm := some analysisId }, 0)

/-- Clicking Cancel in the modal: `setDeleteConfirm(null)`.  Zero DELETE
requests. -/
def clickCancel (st : DashState) : DashState × Nat :=
  ({ st with deleteConfirm := none }, 0)

/-- Clicking Delete in the modal runs `handleDeleteAnalysis(deleteConfirm)`:
exactly one DELETE request goes out, then the response status decides the
state update — success filters the id out of the local list and closes the
modal, 401 pushes `/login`, anything else sets the error message. -/
def confirmDelete (st : DashState) (analysisId : Int) (status : Nat) : DashState × Nat :=
  (if respOk status then
    { st with analyses := st.analyses.filter (fun a => !(a.id == analysisId))
              deleteConfirm := none }
  else if status = 401 then st
  else { st with error := some "Failed to delete analysis" }, 1)

/-- A file as the upload page's change handler sees it: name and MIME
type. -/
structure UploadFile where
  name : String
  type : String
deriving DecidableEq

/-- The upload page state touched by file selection and the analyze
button. -/
structure UploadState where
  file : Option UploadFile
  error : Option String
  loading : Bool
deriving DecidableEq

/-- `handleFileChange` of the upload page: a selected file of MIME type
`application/pdf` replaces the file state and clears the error; any other
selection (wrong type, or no file) only sets the error message — the file
state keeps its previous value. -/
def handleFileChange (st : UploadState) (selected : Option UploadFile) : UploadState :=
  match selected with
  | some f =>
      if f.type == "application/pdf" then { st with file := some f, error := none }
      else { st with error := some "Please select a PDF file" }
  | none => { st with error := some "Please select a PDF file" }

/-- Whether the Analyze PDF button is enabled (`disabled={!file || loading}`
negated); `analyzePDF` also early-returns unless a file is set. -/
def analyzeEnabled (st : UploadState) : Bool :=
  st.file.isSome && !st.loading

/-- A mapping that has a `Property Type` key holding an empty (falsy)
string. -/
def dPropertyTypeEmpty : ExtractedData :=
  [("Property Type", JsValue.str "")]

/-- A mapping whose only key, `Price`, holds an empty (falsy) string. -/
def dPriceEmpty : ExtractedData :=
  [("Price", JsValue.str "")]

/-- The residential example mapping of the specification. -/
def dResidentialEx : ExtractedData :=
  [("Price", JsValue.str "$500,000"), ("Sq Ft", JsValue.str "1200"),
   ("Bedrooms", JsValue.str "3"), ("Bathrooms", JsValue.str "2"),
   ("Color", JsValue.str "Blue")]

/-- A second dashboard list entry, kept by the delete of id 1. -/
def recB : AnalysisRec :=
  ⟨2, "b.pdf", 200⟩

/-- A dashboard state with two analyses and the confirm modal open on
id 1. -/
def stDashEx : DashState :=
  ⟨[⟨1, "a.pdf", 100⟩, recB], some 1, none⟩

/-- A PDF file as selected on the upload page. -/
def pdfA : UploadFile :=
  ⟨"a.pdf", "application/pdf"⟩

/-- A non-PDF file offered to the file picker afterwards. -/
def fTxt : UploadFile :=
  ⟨"b.txt", "text/plain"⟩

/-- Upload state with a PDF already selected and no request in flight. -/
def stUploadEx : UploadState :=
  ⟨some pdfA, none, false⟩

theorem count_filter_nodup (l : List String) (p : String → Bool) (k : String)
    (h : l.Nodup) : (l.filter p).count k = if k ∈ l ∧ p k = true then 1 else 0 := by
  by_cases hm : k ∈ l ∧ p k = true
  · rw [if_pos hm]
    exact List.count_eq_one_of_mem (h.filter p) (List.mem_filter.2 ⟨hm.1, hm.2⟩)
  · rw [if_neg hm, List.count_eq_zero]
    intro hc
    exact hm ⟨(List.mem_filter.1 hc).1, (List.mem_filter.1 hc).2⟩

theorem keyList_filter (l : ExtractedData) (q : String → Bool) :
    keyList (l.filter (fun p => q p.1)) = (keyList l).filter q := by
  unfold keyList
  induction l with
  | nil => rfl
  | cons a t ih =>
    by_cases hq : q a.1 <;> simp [List.filter_cons, hq, ih]

theorem keyList_additional (d : ExtractedData) :
    keyList (additionalEntries d) =
      (keyList d).filter (fun s => !((primaryKeysList d).contains s)) :=
  keyList_filter d (fun s => !((primaryKeysList d).contains s))

theorem truthy_mem (d : ExtractedData) (k : String)
    (h : jsTruthy (getVal d k) = true) : k ∈ keyList d := by
  unfold getVal at h
  rcases hf : List.find? (fun p => p.1 == k) d with _ | p
  · rw [hf] at h
    simp [jsTruthy] at h
  · have hp := List.find?_some hf
    have hpk : p.1 = k := by simpa using hp
    have hpm : p ∈ d := List.mem_of_find?_eq_some hf
    subst hpk
    exact List.mem_map.2 ⟨p, hpm, rfl⟩

theorem displayOrder_nodup (d : ExtractedData) : (displayOrder d).Nodup := by
  unfold displayOrder
  split <;> decide

theorem propertyDetails_nodup : propertyDetails.Nodup := by
  decide

theorem display_details_disjoint (d : ExtractedData) (k : String)
    (h1 : k ∈ displayOrder d) (h2 : k ∈ propertyDetails) : False := by
  have h2' : k = "Address" ∨ k = "MLS#" ∨ k = "Built" := by
    simpa [propertyDetails] using h2
  unfold displayOrder at h1
  rcases h2' with rfl | rfl | rfl <;> revert h1 <;> split <;> decide

/-- C2 (amended): for a mapping with unique keys, the three rendered
groups are pairwise disjoint and cover each key of the mapping exactly
once, except that a key from the fixed primary/details lists whose value
is falsy is dropped from all three groups: a key is rendered exactly once
iff it is present and (its value is truthy or it lies outside the fixed
lists), and never more than once. -/
theorem c2_grouping_partition (d : ExtractedData) (h : (keyList d).Nodup) :
    ∀ k : String, (allGroupKeys d).count k =
      if k ∈ keyList d ∧ (jsTruthy (getVal d k) = true ∨ ¬ k ∈ primaryKeysList d)
      then 1 else 0 := by
  intro k
  unfold allGroupKeys renderedPrimary renderedDetails
  rw [List.count_append, List.count_append, keyList_additional,
      count_filter_nodup _ _ _ (displayOrder_nodup d),
      count_filter_nodup _ _ _ propertyDetails_nodup,
      count_filter_nodup _ _ _ h]
  have hPK : k ∈ primaryKeysList d ↔ (k ∈ displayOrder d ∨ k ∈ propertyDetails) := by
    simp [primaryKeysList]
  have hC : ((primaryKeysList d).contains k = true) ↔ k ∈ primaryKeysList d :=
    List.elem_iff
  by_cases hA : k ∈ displayOrder d <;>
    by_cases hB : k ∈ propertyDetails <;>
      by_cases hT : jsTruthy (getVal d k) = true <;>
        by_cases hM : k ∈ keyList d <;>
          first
            | exact absurd hB fun hb => display_details_disjoint d k hA hb
            | exact absurd (truthy_mem d k hT) hM
            | simp [hA, hB, hT, hM, hPK, hC]

/-- C2 witness: on the specification's residential example the key
`Color` is rendered exactly once. -/
theorem c2_grouping_partition_witness :
    (keyList dResidentialEx).Nodup ∧
      (allGroupKeys dResidentialEx).count "Color" =
        (if "Color" ∈ keyList dResidentialEx ∧
            (jsTruthy (getVal dResidentialEx "Color") = true ∨
              ¬ "Color" ∈ primaryKeysList dResidentialEx)
         then 1 else 0) :=
  ⟨by decide, c2_grouping_partition dResidentialEx (by decide) "Color"⟩

/-- C2 counterexample: `{"Price": ""}` has the present key `Price`, the
grouping block does render (the mapping is non-empty), yet `Price`
appears in none of the three groups — the claimed partition of the full
present-key set fails. -/
theorem c2_counterexample :
    containsKey dPriceEmpty "Price" = true ∧
      renderGrouping dPriceEmpty ≠ none ∧
      (allGroupKeys dPriceEmpty).count "Price" = 0 := by
  decide

theorem jsTruthy_bool (b : Bool) : jsTruthy (JsValue.bool b) = b :=
  rfl

/-- C1 (amended): the classifier decides commercial exactly when
`Property Type` holds a truthy value, or `Sq Ft` holds a truthy value
while `Bedrooms` is absent or falsy; a truthy `Property Type` dominates
(it is the left operand of the JavaScript `||`). -/
theorem c1_commercial_truthiness (d : ExtractedData) :
    isCommercial d =
      (jsTruthy (getVal d "Property Type") ||
        (jsTruthy (getVal d "Sq Ft") && !jsTruthy (getVal d "Bedrooms"))) := by
  unfold isCommercial isCommercialVal jsOr jsAnd jsNot
  cases h1 : jsTruthy (getVal d "Property Type") <;>
    cases h2 : jsTruthy (getVal d "Sq Ft") <;>
      cases h3 : jsTruthy (getVal d "Bedrooms") <;>
        simp [h1, h2, h3, jsTruthy_bool]

/-- C1 counterexample: `{"Property Type": ""}` contains a `Property Type`
key, yet the classifier decides residential — the decision tests value
truthiness, not key presence. -/
theorem c1_counterexample :
    containsKey dPropertyTypeEmpty "Property Type" = true ∧
      isCommercial dPropertyTypeEmpty = false := by
  decide

/-- C3 (amended): on a 401 the dashboard list fetch clears both storage
entries and redirects to login; the single-resource fetch and both delete
handlers redirect to login WITHOUT clearing storage; no 401 branch sets an
error message, and the list-fetch handling is idempotent on its own
result. -/
theorem c3_auth401_behavior (s : Storage) :
    fetchAnalysesOn s 401 = ⟨clearedStorage, some "/login", none⟩ ∧
      fetchAnalysisOn s 401 = ⟨s, some "/login", none⟩ ∧
      deleteDashOn s 401 = ⟨s, some "/login", none⟩ ∧
      deleteDetailOn s 401 = ⟨s, some "/login", none⟩ ∧
      fetchAnalysesOn (fetchAnalysesOn s 401).storage 401 = fetchAnalysesOn s 401 := by
  refine ⟨?_, ?_, ?_, ?_, ?_⟩ <;>
    simp [fetchAnalysesOn, fetchAnalysisOn, deleteDashOn, deleteDetailOn,
      show respOk 401 = false from by decide]

/-- C3 counterexample: a 401 on the single-resource fetch redirects to
login but leaves the session token and user in storage — the claimed
clearing does not happen on that call. -/
theorem c3_counterexample :
    (fetchAnalysisOn ⟨some "token", some "user"⟩ 401).pushedRoute = some "/login" ∧
      (fetchAnalysisOn ⟨some "token", some "user"⟩ 401).storage ≠ clearedStorage := by
  decide

/-- C4 (amended): the dashboard load reads both entries and issues its
fetch exactly when both are non-falsy, redirecting to login otherwise and
issuing no fetch; the analysis detail load consults only the session
token (replacing the stored user record changes nothing) and redirects
exactly when the token is falsy. -/
theorem c4_load_gate (s : Storage) :
    ((dashboardLoad s).fetchIssued = true ↔
        (jsStrFalsy s.session_token = false ∧ jsStrFalsy s.user = false)) ∧
      ((dashboardLoad s).redirect = some "/login" ↔ (dashboardLoad s).fetchIssued = false) ∧
      ((analysisLoad s).fetchIssued = true ↔ jsStrFalsy s.session_token = false) ∧
      ((analysisLoad s).redirect = some "/login" ↔ (analysisLoad s).fetchIssued = false) ∧
      analysisLoad ⟨s.session_token, none⟩ = analysisLoad s := by
  unfold dashboardLoad analysisLoad
  cases hT : jsStrFalsy s.session_token <;> cases hU : jsStrFalsy s.user <;> simp [hT, hU]

/-- C4 counterexample: with a token stored but no user record, the
analysis detail page neither redirects nor stops loading — it issues the
fetch, refuting the claim for that protected page. -/
theorem c4_counterexample :
    analysisLoad ⟨some "token", none⟩ = ⟨none, true⟩ := by
  decide

/-- C5: opening the confirm modal and cancelling each issue zero DELETE
calls and leave the list unchanged; confirming issues exactly one DELETE
call; on a 2xx response the new list is the old one with exactly the
entries carrying the confirmed id removed (every other entry kept), and
on any non-2xx response the list is unchanged. -/
theorem c5_delete_flow (st : DashState) (analysisId : Int) (status : Nat) :
    (clickDelete st analysisId).2 = 0 ∧
      (clickDelete st analysisId).1.analyses = st.analyses ∧
      (clickCancel st).2 = 0 ∧
      (clickCancel st).1.analyses = st.analyses ∧
      (confirmDelete st analysisId status).2 = 1 ∧
      ((confirmDelete st analysisId status).1.analyses =
        if respOk status = true then st.analyses.filter (fun a => !(a.id == analysisId))
        else st.analyses) ∧
      (∀ a : AnalysisRec, a ∈ st.analyses →
        (a ∈ (confirmDelete st analysisId status).1.analyses ↔
          (respOk status = false ∨ a.id ≠ analysisId))) := by
  refine ⟨rfl, rfl, rfl, rfl, rfl, ?_, ?_⟩
  · unfold confirmDelete
    cases hok : respOk status
    · simp only [Bool.false_eq_true, if_false]
      split <;> rfl
    · simp
  · intro a ha
    unfold confirmDelete
    cases hok : respOk status
    · simp only [Bool.false_eq_true, if_false]
      split <;> simp [ha]
    · simp [List.mem_filter, ha]

/-- C5 witness: from a two-entry list with the modal open on id 1, a
confirmed delete answered 200 keeps the entry with id 2. -/
theorem c5_delete_flow_witness :
    recB ∈ (confirmDelete stDashEx 1 200).1.analyses ↔
      (respOk 200 = false ∨ recB.id ≠ 1) :=
  (c5_delete_flow stDashEx 1 200).2.2.2.2.2.2 recB (by decide)

/-- C6: an empty `extracted_data` renders no grouping block at all — no
primary, details or additional section — and `renderGrouping` is total,
so no error is raised. -/
theorem c6_empty_grouping : renderGrouping ([] : ExtractedData) = none := by
  rfl

/-- C7: `formatFileSize 0 = "0 Bytes"` and `formatFileSize 1536 = "1.5 KB"`
— 1024-based units, two-decimal rounding, trailing zeros dropped by
`parseFloat`. -/
theorem c7_format_file_size :
    formatFileSize 0 = "0 Bytes" ∧ formatFileSize 1536 = "1.5 KB" := by
  refine ⟨rfl, ?_⟩
  have hlog : Nat.log 1024 1536 = 1 :=
    Nat.log_eq_of_pow_le_of_lt_pow (by norm_num) (by norm_num)
  have h1 : formatFileSize 1536 = formatWith 1536 1 := by
    unfold formatFileSize
    rw [if_neg (by norm_num), hlog]
  rw [h1]
  decide

/-- C8: a 404 on the single-resource fetch sets the inline message
`Analysis not found`, pushes no route and leaves storage untouched. -/
theorem c8_notfound_inline (s : Storage) :
    fetchAnalysisOn s 404 = ⟨s, none, some "Analysis not found"⟩ := by
  simp [fetchAnalysisOn, show respOk 404 = false from by decide]

/-- C9: selecting a non-PDF file after a PDF was chosen sets the error
message but keeps the previous file state, so the Analyze button stays
exactly as enabled as before the failed selection. -/
theorem c9_upload_keeps_file (st : UploadState) (f g : UploadFile)
    (hf : st.file = some f) (hg : g.type ≠ "application/pdf") :
    (handleFileChange st (some g)).file = some f ∧
      (handleFileChange st (some g)).error = some "Please select a PDF file" ∧
      analyzeEnabled (handleFileChange st (some g)) = analyzeEnabled st := by
  have h : (g.type == "application/pdf") = false := by
    simpa using hg
  simp [handleFileChange, h, hf, analyzeEnabled]

/-- C9 witness: with `a.pdf` selected, offering `b.txt` keeps `a.pdf` and
raises the message. -/
theorem c9_upload_keeps_file_witness :
    (handleFileChange stUploadEx (some fTxt)).file = some pdfA ∧
      (handleFileChange stUploadEx (some fTxt)).error = some "Please select a PDF file" ∧
      analyzeEnabled (handleFileChange stUploadEx (some fTxt)) = analyzeEnabled stUploadEx :=
  c9_upload_keeps_file stUploadEx pdfA fTxt rfl (by decide)

/-- C10: for every byte count of at least `1024 ^ 4` the unit index walks
past the four-entry unit array, so the formatted string ends in
` undefined` rather than a valid unit. -/
theorem c10_format_overflow (bytes : Nat) (h : 1024 ^ 4 ≤ bytes) :
    ∃ numPart : String, formatFileSize bytes = numPart ++ " undefined" := by
  have hb : bytes ≠ 0 := by
    intro h0
    rw [h0] at h
    norm_num at h
  have hlog : 4 ≤ Nat.log 1024 bytes := (Nat.pow_le_iff_le_log (by norm_num) hb).1 h
  have hunit : sizesArr.getD (Nat.log 1024 bytes) "undefined" = "undefined" :=
    List.getD_eq_default sizesArr "undefined" (by simpa [sizesArr] using hlog)
  refine ⟨sizeNumString bytes (Nat.log 1024 bytes), ?_⟩
  unfold formatFileSize formatWith
  rw [if_neg hb, hunit, String.append_assoc]
  rfl

/-- C10 witness: exactly at one TiB the formatter already falls off the
unit array. -/
theorem c10_format_overflow_witness :
    1024 ^ 4 ≤ 1024 ^ 4 ∧
      ∃ numPart : String, formatFileSize (1024 ^ 4) = numPart ++ " undefined" :=
  ⟨le_refl _, c10_format_overflow (1024 ^ 4) (le_refl _)⟩
